import Mathlib

/-!
Shallow embedding of `input_handlers.py`, the input-driven state machine of a
turn-based roguelike.  Key symbols and modifier bitmasks use the SDL2 keycode
values that `tcod.event` exposes; dictionaries become total functions returning
`Option`; the mutable `Engine` context becomes an explicit record threaded
through each operation.  Collaborators that live outside this file's source
(`engine.py`, `game_map.py`, `color.py`, `level.py`, `actions.py`) are modelled
from the specification and marked as such.
-/

namespace Roguelike

/-- SDL keycodes as used by `tcod.event.KeySym`: plain integers. -/
abbrev KeySym := Int

def KeySym.RETURN : KeySym := 13
def KeySym.ESCAPE : KeySym := 27
def KeySym.PERIOD : KeySym := 46
def KeySym.SLASH : KeySym := 47
def KeySym.a : KeySym := 97
def KeySym.b : KeySym := 98
def KeySym.c : KeySym := 99
def KeySym.d : KeySym := 100
def KeySym.g : KeySym := 103
def KeySym.h : KeySym := 104
def KeySym.i : KeySym := 105
def KeySym.j : KeySym := 106
def KeySym.k : KeySym := 107
def KeySym.l : KeySym := 108
def KeySym.n : KeySym := 110
def KeySym.u : KeySym := 117
def KeySym.v : KeySym := 118
def KeySym.y : KeySym := 121
def KeySym.z : KeySym := 122
def KeySym.HOME : KeySym := 1073741898
def KeySym.PAGEUP : KeySym := 1073741899
def KeySym.END : KeySym := 1073741901
def KeySym.PAGEDOWN : KeySym := 1073741902
def KeySym.RIGHT : KeySym := 1073741903
def KeySym.LEFT : KeySym := 1073741904
def KeySym.DOWN : KeySym := 1073741905
def KeySym.UP : KeySym := 1073741906
def KeySym.KP_ENTER : KeySym := 1073741912
def KeySym.KP_1 : KeySym := 1073741913
def KeySym.KP_2 : KeySym := 1073741914
def KeySym.KP_3 : KeySym := 1073741915
def KeySym.KP_4 : KeySym := 1073741916
def KeySym.KP_5 : KeySym := 1073741917
def KeySym.KP_6 : KeySym := 1073741918
def KeySym.KP_7 : KeySym := 1073741919
def KeySym.KP_8 : KeySym := 1073741920
def KeySym.KP_9 : KeySym := 1073741921
def KeySym.CLEAR : KeySym := 1073741980
def KeySym.LCTRL : KeySym := 1073742048
def KeySym.LSHIFT : KeySym := 1073742049
def KeySym.LALT : KeySym := 1073742050
def KeySym.RCTRL : KeySym := 1073742052
def KeySym.RSHIFT : KeySym := 1073742053
def KeySym.RALT : KeySym := 1073742054

/-- SDL modifier bitmask values (`tcod.event.KMOD_*`). -/
def KMOD_LSHIFT : Nat := 1
def KMOD_RSHIFT : Nat := 2
def KMOD_LCTRL : Nat := 64
def KMOD_RCTRL : Nat := 128
def KMOD_LALT : Nat := 256
def KMOD_RALT : Nat := 512

/-- A key-down event: symbol plus modifier bitmask. -/
structure KeyEvent where
  sym : KeySym
  mod : Nat
deriving DecidableEq, Repr

/-- Modelled from the spec: `color.py` is not under `src/`; only the identity of
a color matters to this core (the "impossible" and "invalid" log colors, and
white/black/red used by rendering), so colors are opaque tags. -/
inductive Color where
  | white
  | black
  | red
  | impossible
  | invalid
deriving DecidableEq, Repr

/-- An inventory item; its capabilities live outside this core, so only its
identity is modelled. -/
structure Item where
  name : String
deriving DecidableEq, Repr

/-- Modelled from the spec: `actions.py` is not under `src/`.  The action kinds
produced directly by the handlers in `input_handlers.py`, as opaque data; their
`perform` semantics is a separate parameter (`PerformSem`). -/
inductive Action where
  | bump (dx dy : Int)
  | wait
  | takeStairs
  | pickup
deriving DecidableEq, Repr

/-- Modelled from the spec: `engine.py` is not under `src/`.  The shared
`Engine` context: player state, map dimensions, the shared mouse/cursor
location, the message log, and the player's inventory items. -/
structure Engine where
  playerX : Int
  playerY : Int
  playerIsAlive : Bool
  requiresLevelUp : Bool
  maxHp : Int
  power : Int
  defense : Int
  mapWidth : Int
  mapHeight : Int
  mouseX : Int
  mouseY : Int
  messageLog : List (String × Color)
  items : List Item
deriving DecidableEq, Repr

/-- State of the scrollable message-history viewer (`HistoryViewer`):
`log_length` is captured at construction time, `cursor` scrolls over it. -/
structure HistoryViewer where
  log_length : Int
  cursor : Int
deriving DecidableEq, Repr

/-- The closed set of interaction modes (the handler classes). -/
inductive Handler where
  | mainGame
  | gameOver
  | levelUp
  | characterScreen
  | inventoryActivate
  | inventoryDrop
  | look
  | history (hv : HistoryViewer)
deriving DecidableEq, Repr

/-- The value a handler's `dispatch` produces: an optional action, a new
handler, or a raised `SystemExit`. -/
inductive Dispatch where
  | action (a : Option Action)
  | handler (h : Handler)
  | systemExit
deriving DecidableEq, Repr

/-- Result of one `handle_events` round. -/
inductive Outcome where
  | next (e : Engine) (h : Handler)
  | systemExit
deriving DecidableEq, Repr

/-- `MOVE_KEYS`: physical key to `(dx, dy)` unit vector. -/
def MOVE_KEYS (key : KeySym) : Option (Int × Int) :=
  if key = KeySym.UP then some (0, -1)
  else if key = KeySym.DOWN then some (0, 1)
  else if key = KeySym.LEFT then some (-1, 0)
  else if key = KeySym.RIGHT then some (1, 0)
  else if key = KeySym.HOME then some (-1, -1)
  else if key = KeySym.END then some (-1, 1)
  else if key = KeySym.PAGEUP then some (1, -1)
  else if key = KeySym.PAGEDOWN then some (1, 1)
  else if key = KeySym.KP_1 then some (-1, 1)
  else if key = KeySym.KP_2 then some (0, 1)
  else if key = KeySym.KP_3 then some (1, 1)
  else if key = KeySym.KP_4 then some (-1, 0)
  else if key = KeySym.KP_6 then some (1, 0)
  else if key = KeySym.KP_7 then some (-1, -1)
  else if key = KeySym.KP_8 then some (0, -1)
  else if key = KeySym.KP_9 then some (1, -1)
  else if key = KeySym.h then some (-1, 0)
  else if key = KeySym.j then some (0, 1)
  else if key = KeySym.k then some (0, -1)
  else if key = KeySym.l then some (1, 0)
  else if key = KeySym.y then some (-1, -1)
  else if key = KeySym.u then some (1, -1)
  else if key = KeySym.b then some (-1, 1)
  else if key = KeySym.n then some (1, 1)
  else none

/-- `WAIT_KEYS`: keys producing the skip-turn action. -/
def WAIT_KEYS (key : KeySym) : Bool :=
  decide (key = KeySym.PERIOD ∨ key = KeySym.KP_5 ∨ key = KeySym.CLEAR)

/-- `CONFIRM_KEYS`: keys accepting the highlighted tile. -/
def CONFIRM_KEYS (key : KeySym) : Bool :=
  decide (key = KeySym.RETURN ∨ key = KeySym.KP_ENTER)

/-- `CURSOR_Y_KEYS` (history viewer): key to signed line/page delta. -/
def CURSOR_Y_KEYS (key : KeySym) : Option Int :=
  if key = KeySym.UP then some (-1)
  else if key = KeySym.DOWN then some 1
  else if key = KeySym.PAGEUP then some (-10)
  else if key = KeySym.PAGEDOWN then some 10
  else none

/-- Modelled from the spec: `message_log.py` is not under `src/`; the spec
describes the log as an ordered sequence of (text, color) pairs with an
append-message-with-color operation. -/
def Engine.add_message (e : Engine) (text : String) (fg : Color) : Engine :=
  { e with messageLog := e.messageLog ++ [(text, fg)] }

/-- Modelled from the spec: `game_map.py` is not under `src/`; `in_bounds` is
the standard tile-location bounds predicate over the map dimensions. -/
def GameMap.in_bounds (e : Engine) (x y : Int) : Prop :=
  0 ≤ x ∧ x < e.mapWidth ∧ 0 ≤ y ∧ y < e.mapHeight

instance (e : Engine) (x y : Int) : Decidable (GameMap.in_bounds e x y) := by
  unfold GameMap.in_bounds
  infer_instance

/-- Modelled from the spec: `level.py` is not under `src/`; per §4.5 the three
level-up choices add +20 max HP, +1 attack power, +1 defense. -/
def Level.increase_max_hp (e : Engine) : Engine :=
  { e with maxHp := e.maxHp + 20 }

/-- Modelled from the spec: see `Level.increase_max_hp`. -/
def Level.increase_power (e : Engine) : Engine :=
  { e with power := e.power + 1 }

/-- Modelled from the spec: see `Level.increase_max_hp`. -/
def Level.increase_defense (e : Engine) : Engine :=
  { e with defense := e.defense + 1 }

/-- Modelled from the spec: the enemy-turn-resolution and field-of-view-refresh
callbacks (`engine.handle_enemy_turn`, `engine.update_fov`) are external
collaborators; they are abstract state transformers here. -/
structure Callbacks where
  handle_enemy_turn : Engine → Engine
  update_fov : Engine → Engine

/-- Modelled from the spec: `Action.perform()` either succeeds (mutating world
state) or fails with an `Impossible` error carrying a user-facing message. -/
abbrev PerformSem := Action → Engine → Except String Engine

/-- `EventHandler.handle_action` (lines 118-132): `None` returns false; a
performed action that raises `Impossible` logs its message with the
"impossible" color and returns false; on success the enemy-turn callback runs,
then the field-of-view refresh, and it returns true. -/
def EventHandler.handle_action (cb : Callbacks) (sem : PerformSem) (e : Engine)
    (action : Option Action) : Engine × Bool :=
  match action with
  | none => (e, false)
  | some act =>
    match sem act e with
    | Except.error msg => (Engine.add_message e msg Color.impossible, false)
    | Except.ok e1 => (cb.update_fov (cb.handle_enemy_turn e1), true)

/-- `EventHandler.handle_events` (lines 106-116), after `self.dispatch(event)`
has produced `d`: a handler becomes the next active handler; otherwise the
action is handled, and on success the next handler is computed from player
state (game over, then level up, then a fresh main-game handler). -/
def EventHandler.handle_events_core (cb : Callbacks) (sem : PerformSem)
    (self : Handler) (e : Engine) (d : Dispatch) : Outcome :=
  match d with
  | Dispatch.handler h => Outcome.next e h
  | Dispatch.systemExit => Outcome.systemExit
  | Dispatch.action act =>
    let r := EventHandler.handle_action cb sem e act
    if r.2 then
      if r.1.playerIsAlive = false then Outcome.next r.1 Handler.gameOver
      else if r.1.requiresLevelUp then Outcome.next r.1 Handler.levelUp
      else Outcome.next r.1 Handler.mainGame
    else Outcome.next r.1 self

/-- `EventHandler.ev_mousemotion` (lines 134-136): writes the shared mouse
location only when the event tile is in bounds. -/
def EventHandler.ev_mousemotion (e : Engine) (tileX tileY : Int) : Engine :=
  if GameMap.in_bounds e tileX tileY then
    { e with mouseX := tileX, mouseY := tileY }
  else e

/-- `HistoryViewer.__init__` (lines 480-484): capture the log length and set
the cursor to the last message. -/
def HistoryViewer.init (e : Engine) : HistoryViewer :=
  { log_length := (e.messageLog.length : Int),
    cursor := (e.messageLog.length : Int) - 1 }

/-- `MainGameEventHandler.ev_keydown` (lines 142-178). -/
def MainGameEventHandler.ev_keydown (e : Engine) (ev : KeyEvent) : Dispatch :=
  if ev.sym = KeySym.PERIOD ∧ ev.mod &&& (KMOD_LSHIFT ||| KMOD_RSHIFT) ≠ 0 then
    Dispatch.action (some Action.takeStairs)
  else
    match MOVE_KEYS ev.sym with
    | some (dx, dy) => Dispatch.action (some (Action.bump dx dy))
    | none =>
      if WAIT_KEYS ev.sym then Dispatch.action (some Action.wait)
      else if ev.sym = KeySym.ESCAPE then Dispatch.systemExit
      else if ev.sym = KeySym.v then
        Dispatch.handler (Handler.history (HistoryViewer.init e))
      else if ev.sym = KeySym.g then Dispatch.action (some Action.pickup)
      else if ev.sym = KeySym.i then Dispatch.handler Handler.inventoryActivate
      else if ev.sym = KeySym.d then Dispatch.handler Handler.inventoryDrop
      else if ev.sym = KeySym.c then Dispatch.handler Handler.characterScreen
      else if ev.sym = KeySym.SLASH then Dispatch.handler Handler.look
      else Dispatch.action none

/-- `AskUserEventHandler.on_exit` (lines 195-196): return to a freshly built
main-gameplay handler. -/
def AskUserEventHandler.on_exit : Dispatch :=
  Dispatch.handler Handler.mainGame

/-- `AskUserEventHandler.ev_keydown` (lines 182-190): ignore pure modifier
keys, any other key exits. -/
def AskUserEventHandler.ev_keydown (ev : KeyEvent) : Dispatch :=
  if ev.sym = KeySym.LSHIFT ∨ ev.sym = KeySym.RSHIFT ∨ ev.sym = KeySym.LCTRL ∨
      ev.sym = KeySym.RCTRL ∨ ev.sym = KeySym.LALT ∨ ev.sym = KeySym.RALT then
    Dispatch.action none
  else AskUserEventHandler.on_exit

/-- `LevelUpEventHandler.ev_keydown` (lines 258-275): `a`/`b`/`c` apply one
stat increase then fall through to the ask-user exit; any other key logs
"Invalid entry." and returns `None`. -/
def LevelUpEventHandler.ev_keydown (e : Engine) (ev : KeyEvent) :
    Engine × Dispatch :=
  let index := ev.sym - KeySym.a
  if 0 ≤ index ∧ index ≤ 2 then
    let e1 :=
      if index = 0 then Level.increase_max_hp e
      else if index = 1 then Level.increase_power e
      else Level.increase_defense e
    (e1, AskUserEventHandler.ev_keydown ev)
  else
    (Engine.add_message e "Invalid entry." Color.invalid, Dispatch.action none)

/-- `InventoryEventHandler.ev_keydown` (lines 329-341), parameterised by the
subclass's `on_item_selected`: letter index in `0..26` selects the item at
that index (an out-of-range index logs "Invalid entry." and returns `None`);
other keys fall through to the ask-user exit. -/
def InventoryEventHandler.ev_keydown (onItemSelected : Item → Dispatch)
    (e : Engine) (ev : KeyEvent) : Engine × Dispatch :=
  let index := ev.sym - KeySym.a
  if 0 ≤ index ∧ index ≤ 26 then
    match e.items[index.toNat]? with
    | none =>
      (Engine.add_message e "Invalid entry." Color.invalid, Dispatch.action none)
    | some selected_item => (e, onItemSelected selected_item)
  else
    (e, AskUserEventHandler.ev_keydown ev)

/-- `SelectIndexHandler.__init__` (lines 367-371): sets the shared cursor to
the player's position. -/
def SelectIndexHandler.init (e : Engine) : Engine :=
  { e with mouseX := e.playerX, mouseY := e.playerY }

/-- `SelectIndexHandler.ev_keydown` (lines 380-402), parameterised by the
subclass's `on_index_selected`.  The movement branch is embedded exactly as
written in the source, including the final two assignments
`x = max(0, width - 1)` and `y = max(0, height - 1)` that rebind `x`/`y`
after the `x += dx * modifier` updates. -/
def SelectIndexHandler.ev_keydown (onIndexSelected : Int → Int → Dispatch)
    (e : Engine) (ev : KeyEvent) : Engine × Dispatch :=
  match MOVE_KEYS ev.sym with
  | some (dx, dy) =>
    let modifier : Int := 1
    let modifier := if ev.mod &&& (KMOD_LSHIFT ||| KMOD_RSHIFT) ≠ 0 then
      modifier * 5 else modifier
    let modifier := if ev.mod &&& (KMOD_LCTRL ||| KMOD_RCTRL) ≠ 0 then
      modifier * 10 else modifier
    let modifier := if ev.mod &&& (KMOD_LALT ||| KMOD_RALT) ≠ 0 then
      modifier * 20 else modifier
    let x := e.mouseX
    let y := e.mouseY
    let x := x + dx * modifier
    let y := y + dy * modifier
    let x := max 0 (e.mapWidth - 1)
    let y := max 0 (e.mapHeight - 1)
    ({ e with mouseX := x, mouseY := y }, Dispatch.action none)
  | none =>
    if CONFIRM_KEYS ev.sym then
      (e, onIndexSelected e.mouseX e.mouseY)
    else
      (e, AskUserEventHandler.ev_keydown ev)

/-- `LookHandler.on_index_selected` (lines 415-417): return to the main
gameplay handler. -/
def LookHandler.on_index_selected : Int → Int → Dispatch :=
  fun _ _ => Dispatch.handler Handler.mainGame

/-- `GameOverEventHandler.on_quit` (lines 459-462): delete the save file if it
exists, then raise `QuitWithoutSaving`.  Result: (save-file-exists afterwards,
quit-without-saving raised). -/
def GameOverEventHandler.on_quit (saveExists : Bool) : Bool × Bool :=
  ((if saveExists then false else saveExists), true)

/-- `GameOverEventHandler.ev_keydown` (lines 467-469): only Escape triggers
`on_quit`; every other key returns `None` with no side effect.  Result:
(save-file-exists afterwards, quit-without-saving raised). -/
def GameOverEventHandler.ev_keydown (saveExists : Bool) (ev : KeyEvent) :
    Bool × Bool :=
  if ev.sym = KeySym.ESCAPE then GameOverEventHandler.on_quit saveExists
  else (saveExists, false)

/-- `HistoryViewer.ev_keydown` (lines 504-519): cursor keys move with
wrap-around at both ends, Home/End jump, anything else returns a fresh
main-game handler. -/
def HistoryViewer.ev_keydown (self : HistoryViewer) (ev : KeyEvent) :
    HistoryViewer × Option Handler :=
  match CURSOR_Y_KEYS ev.sym with
  | some adjust =>
    if adjust < 0 ∧ self.cursor = 0 then
      ({ self with cursor := self.log_length - 1 }, none)
    else if adjust > 0 ∧ self.cursor = self.log_length - 1 then
      ({ self with cursor := 0 }, none)
    else
      ({ self with
          cursor := max 0 (min (self.cursor + adjust) (self.log_length - 1)) },
        none)
  | none =>
    if ev.sym = KeySym.HOME then ({ self with cursor := 0 }, none)
    else if ev.sym = KeySym.END then
      ({ self with cursor := self.log_length - 1 }, none)
    else (self, some Handler.mainGame)

/-- Iterate `HistoryViewer.ev_keydown` over a sequence of key events, keeping
the viewer state. -/
def HistoryViewer.run (self : HistoryViewer) (evs : List KeyEvent) :
    HistoryViewer :=
  evs.foldl (fun hv ev => (HistoryViewer.ev_keydown hv ev).1) self

/-- A concrete engine used to instantiate theorems: an 80x45 map, the player
alive at (10, 10), cursor at (5, 5), empty log and inventory. -/
def testEngine : Engine :=
  { playerX := 10, playerY := 10, playerIsAlive := true, requiresLevelUp := false,
    maxHp := 30, power := 5, defense := 2, mapWidth := 80, mapHeight := 45,
    mouseX := 5, mouseY := 5, messageLog := [], items := [] }

/-- Callbacks that leave the engine unchanged, for concrete instantiation. -/
def idCallbacks : Callbacks :=
  { handle_enemy_turn := id, update_fov := id }

/-- A perform semantics in which every action succeeds without effect. -/
def okSem : PerformSem := fun _ e => Except.ok e

/-- A perform semantics in which every action raises `Impossible`. -/
def errSem : PerformSem := fun _ _ => Except.error "That way is blocked."

/-- C1: the tile-selection cursor-movement branch of
`SelectIndexHandler.ev_keydown` does not move the cursor by the key vector:
the clamping lines `x = max(0, width - 1)` / `y = max(0, height - 1)` rebind
`x`/`y` and discard the computed position, so on an 80x45 map with the cursor
at (5, 5), pressing the Up key with no modifiers leaves the cursor at
(79, 44) instead of the (5, 4) the specification requires. -/
theorem c1_select_cursor_write_code_bug :
    (SelectIndexHandler.ev_keydown LookHandler.on_index_selected testEngine
      { sym := KeySym.UP, mod := 0 }).1.mouseX = 79 ∧
    (SelectIndexHandler.ev_keydown LookHandler.on_index_selected testEngine
      { sym := KeySym.UP, mod := 0 }).1.mouseY = 44 ∧
    ¬((SelectIndexHandler.ev_keydown LookHandler.on_index_selected testEngine
      { sym := KeySym.UP, mod := 0 }).1.mouseX = 5 ∧
      (SelectIndexHandler.ev_keydown LookHandler.on_index_selected testEngine
        { sym := KeySym.UP, mod := 0 }).1.mouseY = 4) := by
  decide

/-- C2: after a successfully performed action, `EventHandler.handle_events`
computes the next handler from player state in priority order: game over if
the player is not alive, else level up if a level-up is pending, else a fresh
main-game handler.  Death takes priority over a pending level-up because the
alive check comes first. -/
theorem c2_next_handler_priority (cb : Callbacks) (sem : PerformSem)
    (self : Handler) (e e1 : Engine) (act : Action)
    (h : sem act e = Except.ok e1) :
    EventHandler.handle_events_core cb sem self e (Dispatch.action (some act)) =
      (if (cb.update_fov (cb.handle_enemy_turn e1)).playerIsAlive = false then
        Outcome.next (cb.update_fov (cb.handle_enemy_turn e1)) Handler.gameOver
      else if (cb.update_fov (cb.handle_enemy_turn e1)).requiresLevelUp then
        Outcome.next (cb.update_fov (cb.handle_enemy_turn e1)) Handler.levelUp
      else
        Outcome.next (cb.update_fov (cb.handle_enemy_turn e1)) Handler.mainGame) := by
  simp [EventHandler.handle_events_core, EventHandler.handle_action, h]

/-- Witness for C2 at a concrete input. -/
theorem c2_next_handler_priority_witness :
    EventHandler.handle_events_core idCallbacks okSem Handler.look testEngine
      (Dispatch.action (some Action.wait)) =
      Outcome.next testEngine Handler.mainGame := by
  rw [c2_next_handler_priority idCallbacks okSem Handler.look testEngine
    testEngine Action.wait rfl]
  decide

/-- C3: when `perform()` raises `Impossible`, `handle_action` appends exactly
the error message to the log with the "impossible" color, returns false, the
enemy-turn and field-of-view callbacks are not invoked (the result does not
depend on them), and `handle_events` keeps the active handler; when it
succeeds, the enemy-turn callback runs, then the field-of-view refresh, and
it returns true. -/
theorem c3_handle_action_impossible_and_success (cb : Callbacks)
    (sem : PerformSem) (self : Handler) (e : Engine) (act : Action) :
    (∀ msg, sem act e = Except.error msg →
      EventHandler.handle_action cb sem e (some act) =
        (Engine.add_message e msg Color.impossible, false) ∧
      EventHandler.handle_events_core cb sem self e
          (Dispatch.action (some act)) =
        Outcome.next (Engine.add_message e msg Color.impossible) self) ∧
    (∀ e1, sem act e = Except.ok e1 →
      EventHandler.handle_action cb sem e (some act) =
        (cb.update_fov (cb.handle_enemy_turn e1), true)) := by
  constructor
  · intro msg h
    constructor
    · simp [EventHandler.handle_action, h]
    · simp [EventHandler.handle_events_core, EventHandler.handle_action, h]
  · intro e1 h
    simp [EventHandler.handle_action, h]

/-- Witness for C3 at a concrete input. -/
theorem c3_handle_action_impossible_and_success_witness :
    EventHandler.handle_action idCallbacks errSem testEngine
      (some Action.wait) =
      (Engine.add_message testEngine "That way is blocked." Color.impossible,
        false) :=
  ((c3_handle_action_impossible_and_success idCallbacks errSem
    Handler.mainGame testEngine Action.wait).1 "That way is blocked." rfl).1

theorem MOVE_KEYS_PERIOD : MOVE_KEYS KeySym.PERIOD = none := by decide

theorem MOVE_KEYS_KP_5 : MOVE_KEYS KeySym.KP_5 = none := by decide

theorem MOVE_KEYS_CLEAR : MOVE_KEYS KeySym.CLEAR = none := by decide

theorem WAIT_KEYS_PERIOD : WAIT_KEYS KeySym.PERIOD = true := by decide

theorem WAIT_KEYS_KP_5 : WAIT_KEYS KeySym.KP_5 = true := by decide

theorem WAIT_KEYS_CLEAR : WAIT_KEYS KeySym.CLEAR = true := by decide

/-- C4 counterexample: `PERIOD` is a wait key, yet dispatching it with Shift
held produces the take-stairs action, not the skip-turn action — the claim
"for every key in the wait set, dispatching it under any modifier state
produces exactly the skip-turn action" is false. -/
theorem c4_wait_key_shift_period_counterexample :
    WAIT_KEYS KeySym.PERIOD = true ∧
    MainGameEventHandler.ev_keydown testEngine
      { sym := KeySym.PERIOD, mod := KMOD_LSHIFT } =
      Dispatch.action (some Action.takeStairs) ∧
    Dispatch.action (some Action.takeStairs) ≠
      Dispatch.action (some Action.wait) := by
  decide

/-- C4 (amended): every movement-table key produces the bump action with
exactly its configured vector under any modifier state; every wait-set key
produces exactly the skip-turn action, except `PERIOD` with Shift held, which
produces the take-stairs action; a wait-set key never produces a movement
action. -/
theorem c4_move_and_wait_keys (e : Engine) (key : KeySym) (m : Nat) :
    (∀ dx dy, MOVE_KEYS key = some (dx, dy) →
      MainGameEventHandler.ev_keydown e { sym := key, mod := m } =
        Dispatch.action (some (Action.bump dx dy))) ∧
    (WAIT_KEYS key = true →
      MainGameEventHandler.ev_keydown e { sym := key, mod := m } =
        (if key = KeySym.PERIOD ∧ m &&& (KMOD_LSHIFT ||| KMOD_RSHIFT) ≠ 0 then
          Dispatch.action (some Action.takeStairs)
        else Dispatch.action (some Action.wait)) ∧
      ∀ dx dy, MainGameEventHandler.ev_keydown e { sym := key, mod := m } ≠
        Dispatch.action (some (Action.bump dx dy))) := by
  constructor
  · intro dx dy h
    have hns : ¬(key = KeySym.PERIOD ∧
        m &&& (KMOD_LSHIFT ||| KMOD_RSHIFT) ≠ 0) := by
      rintro ⟨hk, -⟩
      rw [hk, MOVE_KEYS_PERIOD] at h
      exact Option.noConfusion h
    simp [MainGameEventHandler.ev_keydown, hns, h]
  · intro hw
    have hw' : key = KeySym.PERIOD ∨ key = KeySym.KP_5 ∨
        key = KeySym.CLEAR := by
      simpa [WAIT_KEYS] using hw
    have heq : MainGameEventHandler.ev_keydown e { sym := key, mod := m } =
        (if key = KeySym.PERIOD ∧
            m &&& (KMOD_LSHIFT ||| KMOD_RSHIFT) ≠ 0 then
          Dispatch.action (some Action.takeStairs)
        else Dispatch.action (some Action.wait)) := by
      rcases hw' with h1 | h1 | h1 <;> subst h1
      · by_cases hm : m &&& (KMOD_LSHIFT ||| KMOD_RSHIFT) ≠ 0
        · simp [MainGameEventHandler.ev_keydown, hm]
        · simp [MainGameEventHandler.ev_keydown, hm, MOVE_KEYS_PERIOD,
            WAIT_KEYS_PERIOD]
      · simp [MainGameEventHandler.ev_keydown, MOVE_KEYS_KP_5, WAIT_KEYS_KP_5,
          show KeySym.KP_5 ≠ KeySym.PERIOD from by decide]
      · simp [MainGameEventHandler.ev_keydown, MOVE_KEYS_CLEAR,
          WAIT_KEYS_CLEAR, show KeySym.CLEAR ≠ KeySym.PERIOD from by decide]
    refine ⟨heq, ?_⟩
    intro dx dy hc
    rw [heq] at hc
    by_cases hm : key = KeySym.PERIOD ∧
        m &&& (KMOD_LSHIFT ||| KMOD_RSHIFT) ≠ 0
    · rw [if_pos hm] at hc
      simp at hc
    · rw [if_neg hm] at hc
      simp at hc

/-- Witness for C4 at concrete inputs. -/
theorem c4_move_and_wait_keys_witness :
    MainGameEventHandler.ev_keydown testEngine
      { sym := KeySym.UP, mod := 0 } =
      Dispatch.action (some (Action.bump 0 (-1))) ∧
    MainGameEventHandler.ev_keydown testEngine
      { sym := KeySym.KP_5, mod := 0 } =
      Dispatch.action (some Action.wait) := by
  constructor
  · exact (c4_move_and_wait_keys testEngine KeySym.UP 0).1 0 (-1) (by decide)
  · have h := ((c4_move_and_wait_keys testEngine KeySym.KP_5 0).2
      (by decide)).1
    rw [h]
    decide

theorem CURSOR_Y_KEYS_HOME : CURSOR_Y_KEYS KeySym.HOME = none := by decide

theorem CURSOR_Y_KEYS_END : CURSOR_Y_KEYS KeySym.END = none := by decide

/-- C5: in the history viewer, a negative delta at cursor 0 wraps to
`log_length - 1`; a positive delta at `log_length - 1` wraps to 0; otherwise
the cursor moves by the delta clamped to `[0, log_length - 1]`; Home jumps to
0, End to `log_length - 1`; any key outside these sets returns a fresh
main-game handler. -/
theorem c5_history_viewer_keydown (hv : HistoryViewer) (ev : KeyEvent) :
    (∀ adjust, CURSOR_Y_KEYS ev.sym = some adjust →
      (adjust < 0 ∧ hv.cursor = 0 →
        HistoryViewer.ev_keydown hv ev =
          ({ hv with cursor := hv.log_length - 1 }, none)) ∧
      (adjust > 0 ∧ hv.cursor = hv.log_length - 1 →
        HistoryViewer.ev_keydown hv ev = ({ hv with cursor := 0 }, none)) ∧
      (¬(adjust < 0 ∧ hv.cursor = 0) →
        ¬(adjust > 0 ∧ hv.cursor = hv.log_length - 1) →
        HistoryViewer.ev_keydown hv ev =
          ({ hv with cursor := max 0 (min (hv.cursor + adjust) (hv.log_length - 1)) }, none))) ∧
    (ev.sym = KeySym.HOME →
      HistoryViewer.ev_keydown hv ev = ({ hv with cursor := 0 }, none)) ∧
    (ev.sym = KeySym.END →
      HistoryViewer.ev_keydown hv ev =
        ({ hv with cursor := hv.log_length - 1 }, none)) ∧
    (CURSOR_Y_KEYS ev.sym = none → ev.sym ≠ KeySym.HOME →
      ev.sym ≠ KeySym.END →
      HistoryViewer.ev_keydown hv ev = (hv, some Handler.mainGame)) := by
  refine ⟨?_, ?_, ?_, ?_⟩
  · intro adjust hadj
    refine ⟨?_, ?_, ?_⟩
    · rintro ⟨h1, h2⟩
      simp [HistoryViewer.ev_keydown, hadj, h1, h2]
    · rintro ⟨h1, h2⟩
      have h1' : ¬adjust < 0 := not_lt.mpr (le_of_lt h1)
      simp [HistoryViewer.ev_keydown, hadj, h1', h1, h2]
    · intro hn1 hn2
      simp [HistoryViewer.ev_keydown, hadj, hn1, hn2]
  · intro h
    simp [HistoryViewer.ev_keydown, h, CURSOR_Y_KEYS_HOME]
  · intro h
    simp [HistoryViewer.ev_keydown, h, CURSOR_Y_KEYS_END,
      show KeySym.END ≠ KeySym.HOME from by decide]
  · intro h0 h1 h2
    simp [HistoryViewer.ev_keydown, h0, h1, h2]

/-- Witness for C5 at a concrete input: cursor 0, Up key wraps to 4. -/
theorem c5_history_viewer_keydown_witness :
    HistoryViewer.ev_keydown { log_length := 5, cursor := 0 }
      { sym := KeySym.UP, mod := 0 } =
      ({ log_length := 5, cursor := 4 }, none) := by
  have h := ((c5_history_viewer_keydown { log_length := 5, cursor := 0 }
    { sym := KeySym.UP, mod := 0 }).1 (-1) (by decide)).1 (by decide)
  rw [h]
  decide

/-- C6: in every inventory menu, letter `a` selects the item at index 0 and
delegates it to `on_item_selected`; a letter whose index is within `a..z` but
at least the current item count logs exactly "Invalid entry.", returns `None`,
and leaves the inventory unchanged (the menu stays open since no handler is
returned). -/
theorem c6_inventory_letter_selection (onSel : Item → Dispatch) (e : Engine)
    (m : Nat) :
    (∀ it rest, e.items = it :: rest →
      InventoryEventHandler.ev_keydown onSel e { sym := KeySym.a, mod := m } =
        (e, onSel it)) ∧
    (∀ key : KeySym, ∀ i : Nat, key = KeySym.a + (i : Int) → i ≤ 25 →
      e.items.length ≤ i →
      InventoryEventHandler.ev_keydown onSel e { sym := key, mod := m } =
        (Engine.add_message e "Invalid entry." Color.invalid,
          Dispatch.action none)) := by
  constructor
  · intro it rest h
    simp [InventoryEventHandler.ev_keydown, KeySym.a, h]
  · intro key i hkey hle hlen
    subst hkey
    have hidx : KeySym.a + (i : Int) - KeySym.a = (i : Int) := by ring
    have h0 : (0 : Int) ≤ (i : Int) := Int.natCast_nonneg i
    have h26 : (i : Int) ≤ 26 := by exact_mod_cast hle.trans (by norm_num)
    have hnone : e.items[i]? = none := List.getElem?_eq_none hlen
    simp [InventoryEventHandler.ev_keydown, hidx, h0, h26, hnone]

/-- Witness for C6 at concrete inputs: with one item, `a` delegates it; with
an empty inventory, `b` logs "Invalid entry.". -/
theorem c6_inventory_letter_selection_witness :
    InventoryEventHandler.ev_keydown (fun _ => Dispatch.action none)
      { testEngine with items := [{ name := "Health Potion" }] }
      { sym := KeySym.a, mod := 0 } =
      ({ testEngine with items := [{ name := "Health Potion" }] },
        Dispatch.action none) ∧
    InventoryEventHandler.ev_keydown (fun _ => Dispatch.action none)
      testEngine { sym := KeySym.b, mod := 0 } =
      (Engine.add_message testEngine "Invalid entry." Color.invalid,
        Dispatch.action none) := by
  constructor
  · exact (c6_inventory_letter_selection (fun _ => Dispatch.action none)
      { testEngine with items := [{ name := "Health Potion" }] } 0).1
      { name := "Health Potion" } [] rfl
  · exact (c6_inventory_letter_selection (fun _ => Dispatch.action none)
      testEngine 0).2 KeySym.b 1 (by decide) (by decide) (by decide)

/-- C7: in the level-up handler, `a`/`b`/`c` each apply exactly one stat
increase (max HP, power, defense respectively) and then exit to a fresh
main-game handler; any key outside `a..c` logs exactly "Invalid entry.",
changes no stat, and returns `None`, so `handle_events` keeps the level-up
handler active. -/
theorem c7_level_up_choices (e : Engine) (m : Nat) :
    LevelUpEventHandler.ev_keydown e { sym := KeySym.a, mod := m } =
      (Level.increase_max_hp e, Dispatch.handler Handler.mainGame) ∧
    LevelUpEventHandler.ev_keydown e { sym := KeySym.b, mod := m } =
      (Level.increase_power e, Dispatch.handler Handler.mainGame) ∧
    LevelUpEventHandler.ev_keydown e { sym := KeySym.c, mod := m } =
      (Level.increase_defense e, Dispatch.handler Handler.mainGame) ∧
    ∀ key : KeySym, ¬(0 ≤ key - KeySym.a ∧ key - KeySym.a ≤ 2) →
      LevelUpEventHandler.ev_keydown e { sym := key, mod := m } =
        (Engine.add_message e "Invalid entry." Color.invalid,
          Dispatch.action none) ∧
      ∀ cb sem, EventHandler.handle_events_core cb sem Handler.levelUp
          (Engine.add_message e "Invalid entry." Color.invalid)
          (Dispatch.action none) =
        Outcome.next (Engine.add_message e "Invalid entry." Color.invalid)
          Handler.levelUp := by
  refine ⟨?_, ?_, ?_, ?_⟩
  · norm_num [LevelUpEventHandler.ev_keydown, AskUserEventHandler.ev_keydown,
      AskUserEventHandler.on_exit, KeySym.a, KeySym.LSHIFT, KeySym.RSHIFT,
      KeySym.LCTRL, KeySym.RCTRL, KeySym.LALT, KeySym.RALT]
  · norm_num [LevelUpEventHandler.ev_keydown, AskUserEventHandler.ev_keydown,
      AskUserEventHandler.on_exit, KeySym.a, KeySym.b, KeySym.LSHIFT,
      KeySym.RSHIFT, KeySym.LCTRL, KeySym.RCTRL, KeySym.LALT, KeySym.RALT]
  · norm_num [LevelUpEventHandler.ev_keydown, AskUserEventHandler.ev_keydown,
      AskUserEventHandler.on_exit, KeySym.a, KeySym.c, KeySym.LSHIFT,
      KeySym.RSHIFT, KeySym.LCTRL, KeySym.RCTRL, KeySym.LALT, KeySym.RALT]
  · intro key hk
    constructor
    · unfold LevelUpEventHandler.ev_keydown
      dsimp only
      rw [if_neg hk]
    · intro cb sem
      simp [EventHandler.handle_events_core, EventHandler.handle_action]

/-- Witness for C7 at a concrete input: Escape is outside `a..c`. -/
theorem c7_level_up_choices_witness :
    LevelUpEventHandler.ev_keydown testEngine
      { sym := KeySym.ESCAPE, mod := 0 } =
      (Engine.add_message testEngine "Invalid entry." Color.invalid,
        Dispatch.action none) :=
  ((c7_level_up_choices testEngine 0).2.2.2 KeySym.ESCAPE (by decide)).1

/-- C8: every write to the shared mouse/cursor location keeps it within map
bounds: mouse-motion dispatch writes only in-bounds tiles; tile-selection
construction copies the player position (in bounds by hypothesis); the
tile-selection cursor-movement branch writes a coordinate that is in bounds
whenever the previous cursor was. -/
theorem c8_mouse_location_in_bounds (e : Engine) (tx ty : Int)
    (onSel : Int → Int → Dispatch) (ev : KeyEvent) :
    (GameMap.in_bounds e e.mouseX e.mouseY →
      GameMap.in_bounds (EventHandler.ev_mousemotion e tx ty)
        (EventHandler.ev_mousemotion e tx ty).mouseX
        (EventHandler.ev_mousemotion e tx ty).mouseY) ∧
    (GameMap.in_bounds e e.playerX e.playerY →
      GameMap.in_bounds (SelectIndexHandler.init e)
        (SelectIndexHandler.init e).mouseX
        (SelectIndexHandler.init e).mouseY) ∧
    (GameMap.in_bounds e e.mouseX e.mouseY →
      GameMap.in_bounds (SelectIndexHandler.ev_keydown onSel e ev).1
        (SelectIndexHandler.ev_keydown onSel e ev).1.mouseX
        (SelectIndexHandler.ev_keydown onSel e ev).1.mouseY) := by
  refine ⟨?_, ?_, ?_⟩
  · intro h
    unfold EventHandler.ev_mousemotion
    split
    · next hin =>
      simpa [GameMap.in_bounds] using hin
    · next hin =>
      simpa [GameMap.in_bounds] using h
  · intro h
    simpa [SelectIndexHandler.init, GameMap.in_bounds] using h
  · intro h
    unfold GameMap.in_bounds at h
    cases hk : MOVE_KEYS ev.sym with
    | some p =>
      obtain ⟨dx, dy⟩ := p
      simp only [SelectIndexHandler.ev_keydown, hk, GameMap.in_bounds]
      refine ⟨le_max_left 0 _, ?_, le_max_left 0 _, ?_⟩ <;> omega
    | none =>
      by_cases hc : CONFIRM_KEYS ev.sym = true
      · simpa [SelectIndexHandler.ev_keydown, hk, hc, GameMap.in_bounds]
          using h
      · simpa [SelectIndexHandler.ev_keydown, hk, hc, GameMap.in_bounds]
          using h

/-- Witness for C8 at concrete inputs. -/
theorem c8_mouse_location_in_bounds_witness :
    GameMap.in_bounds (EventHandler.ev_mousemotion testEngine 3 3)
      (EventHandler.ev_mousemotion testEngine 3 3).mouseX
      (EventHandler.ev_mousemotion testEngine 3 3).mouseY ∧
    GameMap.in_bounds (SelectIndexHandler.init testEngine)
      (SelectIndexHandler.init testEngine).mouseX
      (SelectIndexHandler.init testEngine).mouseY ∧
    GameMap.in_bounds
      (SelectIndexHandler.ev_keydown LookHandler.on_index_selected testEngine
        { sym := KeySym.UP, mod := 0 }).1
      (SelectIndexHandler.ev_keydown LookHandler.on_index_selected testEngine
        { sym := KeySym.UP, mod := 0 }).1.mouseX
      (SelectIndexHandler.ev_keydown LookHandler.on_index_selected testEngine
        { sym := KeySym.UP, mod := 0 }).1.mouseY :=
  ⟨(c8_mouse_location_in_bounds testEngine 3 3 LookHandler.on_index_selected
      { sym := KeySym.UP, mod := 0 }).1 (by decide),
    (c8_mouse_location_in_bounds testEngine 3 3 LookHandler.on_index_selected
      { sym := KeySym.UP, mod := 0 }).2.1 (by decide),
    (c8_mouse_location_in_bounds testEngine 3 3 LookHandler.on_index_selected
      { sym := KeySym.UP, mod := 0 }).2.2 (by decide)⟩

/-- One key-down step of the history viewer preserves the captured log length
and keeps the cursor within `[0, log_length - 1]` when the log is
non-empty. -/
theorem HistoryViewer.keydown_preserves (hv : HistoryViewer) (ev : KeyEvent)
    (hlen : 1 ≤ hv.log_length) (h0 : 0 ≤ hv.cursor)
    (h1 : hv.cursor ≤ hv.log_length - 1) :
    (HistoryViewer.ev_keydown hv ev).1.log_length = hv.log_length ∧
    0 ≤ (HistoryViewer.ev_keydown hv ev).1.cursor ∧
    (HistoryViewer.ev_keydown hv ev).1.cursor ≤ hv.log_length - 1 := by
  unfold HistoryViewer.ev_keydown
  cases hk : CURSOR_Y_KEYS ev.sym with
  | some adjust =>
    dsimp only
    split_ifs <;> refine ⟨rfl, ?_, ?_⟩ <;> dsimp only <;> omega
  | none =>
    dsimp only
    split_ifs <;> refine ⟨rfl, ?_, ?_⟩ <;> dsimp only <;> omega

/-- Iterating key-down steps preserves the history-viewer cursor invariant. -/
theorem HistoryViewer.run_preserves (evs : List KeyEvent) :
    ∀ hv : HistoryViewer, 1 ≤ hv.log_length → 0 ≤ hv.cursor →
      hv.cursor ≤ hv.log_length - 1 →
      (hv.run evs).log_length = hv.log_length ∧
      0 ≤ (hv.run evs).cursor ∧
      (hv.run evs).cursor ≤ hv.log_length - 1 := by
  induction evs with
  | nil =>
    intro hv h1 h2 h3
    exact ⟨rfl, h2, h3⟩
  | cons ev rest ih =>
    intro hv h1 h2 h3
    have hp := HistoryViewer.keydown_preserves hv ev h1 h2 h3
    have hstep : hv.run (ev :: rest) =
        ((HistoryViewer.ev_keydown hv ev).1).run rest := rfl
    have hrec := ih (HistoryViewer.ev_keydown hv ev).1 (hp.1 ▸ h1) hp.2.1
      (hp.1 ▸ hp.2.2)
    refine ⟨?_, ?_, ?_⟩
    · rw [hstep, hrec.1, hp.1]
    · rw [hstep]
      exact hrec.2.1
    · rw [hstep]
      calc (((HistoryViewer.ev_keydown hv ev).1).run rest).cursor
          ≤ (HistoryViewer.ev_keydown hv ev).1.log_length - 1 := hrec.2.2
        _ = hv.log_length - 1 := by rw [hp.1]

/-- C9: for a history viewer opened on a non-empty message log, the cursor
satisfies `0 ≤ cursor ≤ log_length - 1` immediately after construction and
after every sequence of key-down dispatches (the captured log length never
changes). -/
theorem c9_history_cursor_invariant (e : Engine) (evs : List KeyEvent)
    (hne : e.messageLog ≠ []) :
    (0 ≤ (HistoryViewer.init e).cursor ∧
      (HistoryViewer.init e).cursor ≤ (HistoryViewer.init e).log_length - 1) ∧
    ((HistoryViewer.init e).run evs).log_length =
      (HistoryViewer.init e).log_length ∧
    0 ≤ ((HistoryViewer.init e).run evs).cursor ∧
    ((HistoryViewer.init e).run evs).cursor ≤
      ((HistoryViewer.init e).run evs).log_length - 1 := by
  have hl : 0 < e.messageLog.length := List.length_pos.mpr hne
  have hlen : 1 ≤ (HistoryViewer.init e).log_length := by
    simp only [HistoryViewer.init]
    exact_mod_cast hl
  have h0 : 0 ≤ (HistoryViewer.init e).cursor := by
    simp only [HistoryViewer.init]
    omega
  have h1 : (HistoryViewer.init e).cursor ≤
      (HistoryViewer.init e).log_length - 1 := by
    simp only [HistoryViewer.init]
    omega
  have hr := HistoryViewer.run_preserves evs (HistoryViewer.init e) hlen h0 h1
  exact ⟨⟨h0, h1⟩, hr.1, hr.2.1, hr.1 ▸ hr.2.2⟩

/-- Witness for C9 at a concrete input. -/
theorem c9_history_cursor_invariant_witness :
    0 ≤ (HistoryViewer.init
        { testEngine with messageLog := [("Welcome.", Color.white)] }).cursor ∧
    (HistoryViewer.init
        { testEngine with messageLog := [("Welcome.", Color.white)] }).cursor ≤
      (HistoryViewer.init
        { testEngine with
            messageLog := [("Welcome.", Color.white)] }).log_length - 1 :=
  (c9_history_cursor_invariant
    { testEngine with messageLog := [("Welcome.", Color.white)] }
    [{ sym := KeySym.UP, mod := 0 }] (by decide)).1

/-- C10: in the game-over handler, any key other than Escape leaves the save
file untouched, raises no quit-without-saving signal, produces no action, and
`handle_events` keeps the game-over handler active. -/
theorem c10_game_over_non_escape (saveExists : Bool) (ev : KeyEvent)
    (cb : Callbacks) (sem : PerformSem) (e : Engine)
    (h : ev.sym ≠ KeySym.ESCAPE) :
    GameOverEventHandler.ev_keydown saveExists ev = (saveExists, false) ∧
    EventHandler.handle_events_core cb sem Handler.gameOver e
      (Dispatch.action none) = Outcome.next e Handler.gameOver := by
  constructor
  · simp [GameOverEventHandler.ev_keydown, h]
  · simp [EventHandler.handle_events_core, EventHandler.handle_action]

/-- Witness for C10 at a concrete input. -/
theorem c10_game_over_non_escape_witness :
    GameOverEventHandler.ev_keydown true { sym := KeySym.v, mod := 0 } =
      (true, false) ∧
    EventHandler.handle_events_core idCallbacks okSem Handler.gameOver
      testEngine (Dispatch.action none) =
      Outcome.next testEngine Handler.gameOver :=
  c10_game_over_non_escape true { sym := KeySym.v, mod := 0 } idCallbacks
    okSem testEngine (by decide)

end Roguelike
